import Mathlib

set_option linter.unusedVariables false

/-!
Verification development for the load-test driver
`src/projects/ecommerce-microservices/load-tests/python-load-test.py`.

The Python program is shallowly embedded:
* `TestResult` mirrors the `@dataclass TestResult`.
* The three endpoint operations (`get_all_products`, `get_product_by_id`,
  `create_product`) are modelled as total functions over an abstract
  transport outcome (`TransportResult`): the HTTP library either returns a
  response carrying a status code or raises; the `try/except` of the source
  corresponds to the two branches.  Elapsed wall-clock time is an oracle
  parameter (the difference of the two `time.time()` readings).
* The weighted operation selection of `bounded_request` is `selectOperation`
  over an exact rational draw in `[0,1)` (the float literals `0.5` and `0.8`
  behave as the bands `1/2` and `4/5` on every value `random.random()` can
  return).
* The statistics of `_print_results` are embedded over `ℚ`, with the Python function
  `statistics.quantiles(·, n)` (default exclusive method) transliterated as
  `pyQuantiles`.
* The concurrency of `run_scenario` (semaphore-bounded tasks appending to
  `self.results`) is a small-step transition system `ScenStep` over
  `ScenState`; the `try/finally` sequencing of `main` is `mainTrace`.
-/

/-- The `TestResult` dataclass: one immutable request outcome. -/
structure TestResult where
  endpoint : String
  status_code : Nat
  response_time_ms : ℚ
  success : Bool
deriving DecidableEq

/-- Abstract result of one transport call (`session.get`/`session.post`):
either a response with a status code, or a raised transport exception
(connection refused, timeout, DNS failure, ...). -/
inductive TransportResult
  | ok (status : Nat)
  | exn
deriving DecidableEq

/-- Embeds `LoadTestRunner.get_all_products`: GET /api/products.  `elapsed` is the
measured `(time.time() - start_time) * 1000`; on `ok` the `try` body returns a
result with the real status and `success = (status == 200)`, on `exn` the
`except` branch returns status 0, not successful.  The function is total: the
exception is consumed here and never propagated. -/
def get_all_products (tr : TransportResult) (elapsed : ℚ) : TestResult :=
  match tr with
  | .ok status =>
      { endpoint := "GET /api/products"
        status_code := status
        response_time_ms := elapsed
        success := status == 200 }
  | .exn =>
      { endpoint := "GET /api/products"
        status_code := 0
        response_time_ms := elapsed
        success := false }

/-- Embeds `LoadTestRunner.get_product_by_id`: GET /api/products/{id}.  The
`product_id` only enters the URL, not the recorded outcome. -/
def get_product_by_id (tr : TransportResult) (elapsed : ℚ) (product_id : Nat) :
    TestResult :=
  match tr with
  | .ok status =>
      { endpoint := "GET /api/products/{id}"
        status_code := status
        response_time_ms := elapsed
        success := status == 200 }
  | .exn =>
      { endpoint := "GET /api/products/{id}"
        status_code := 0
        response_time_ms := elapsed
        success := false }

/-- Embeds `LoadTestRunner.create_product`: POST /api/products.  The generated
`product_data` payload only enters the request body (a collaborator-side
effect), not the recorded outcome; expected success code is 201. -/
def create_product (tr : TransportResult) (elapsed : ℚ) : TestResult :=
  match tr with
  | .ok status =>
      { endpoint := "POST /api/products"
        status_code := status
        response_time_ms := elapsed
        success := status == 201 }
  | .exn =>
      { endpoint := "POST /api/products"
        status_code := 0
        response_time_ms := elapsed
        success := false }

/-- The three endpoint operations of `bounded_request`. -/
inductive Operation
  | listAll
  | getById
  | create
deriving DecidableEq

/-- The cumulative-weight selection in `bounded_request`:
`operation = random.random()`; `if operation < 0.5` list, `elif operation
< 0.8` get-by-id, `else` create. -/
def selectOperation (u : ℚ) : Operation :=
  if u < 1/2 then .listAll
  else if u < 4/5 then .getById
  else .create

/-- The fixed tenant slugs (`self.tenants`). -/
def tenants : List String := ["company-a", "company-b", "company-c"]

/-- Dispatch of the selected operation in `bounded_request`: the awaited call
producing one `TestResult`.  `tenant` only enters request headers, `pid` only
the URL of the get-by-id case. -/
def performOp (op : Operation) (tenant : String) (pid : Nat)
    (tr : TransportResult) (elapsed : ℚ) : TestResult :=
  match op with
  | .listAll => get_all_products tr elapsed
  | .getById => get_product_by_id tr elapsed pid
  | .create => create_product tr elapsed

/-- Python `sorted` on response times.  On a list of plain numbers any
correct sort for the total order `≤` produces the same output list (the
multiset of elements and sortedness determine it), so `sorted(data)` is
embedded as insertion sort. -/
def sortTimes (l : List ℚ) : List ℚ :=
  l.insertionSort (fun a b => a ≤ b)

/-- One cut point of Python `statistics.quantiles(data, n=n)` with the
default `method="exclusive"`, for sorted data `d` of length `ld`, at index
`i ∈ [1, n-1]`:
`m = ld + 1; j, delta = divmod(i*m, n); j = clamp(j, 1, ld-1);`
`(data[j-1]*(n-delta) + data[j]*delta)/n`. -/
def quantileCut (d : List ℚ) (ld n i : Nat) : ℚ :=
  let m := ld + 1
  let j0 := i * m / n
  let delta := i * m % n
  let j := if j0 < 1 then 1 else if ld - 1 < j0 then ld - 1 else j0
  (d.getD (j - 1) 0 * ((n : ℚ) - (delta : ℚ)) + d.getD j 0 * (delta : ℚ)) / (n : ℚ)

/-- Python `statistics.quantiles(data, n=n)` (exclusive method): sort the
data, then emit the `n - 1` cut points. -/
def pyQuantiles (data : List ℚ) (n : Nat) : List ℚ :=
  let d := sortTimes data
  (List.range (n - 1)).map (fun i0 => quantileCut d d.length n (i0 + 1))

/-- Embeds `statistics.mean(response_times) if response_times else 0`. -/
def avg_response (response_times : List ℚ) : ℚ :=
  if response_times.length ≠ 0 then response_times.sum / response_times.length
  else 0

/-- Embeds `statistics.quantiles(response_times, n=2)[0] if len(response_times) >= 2
else 0`. -/
def p50_response (response_times : List ℚ) : ℚ :=
  if 2 ≤ response_times.length then (pyQuantiles response_times 2).getD 0 0
  else 0

/-- Embeds `statistics.quantiles(response_times, n=20)[18] if len(response_times) >=
20 else 0`. -/
def p95_response (response_times : List ℚ) : ℚ :=
  if 20 ≤ response_times.length then (pyQuantiles response_times 20).getD 18 0
  else 0

/-- Embeds `min(response_times) if response_times else 0`. -/
def min_response (response_times : List ℚ) : ℚ :=
  (response_times.min?).getD 0

/-- Embeds `max(response_times) if response_times else 0`. -/
def max_response (response_times : List ℚ) : ℚ :=
  (response_times.max?).getD 0

/-- Embeds `successful_results = [r for r in self.results if r.success]`. -/
def successful_results (results : List TestResult) : List TestResult :=
  results.filter (fun r => r.success)

/-- Embeds `response_times = [r.response_time_ms for r in successful_results]`. -/
def response_times_of (results : List TestResult) : List ℚ :=
  (successful_results results).map (fun r => r.response_time_ms)

/-- The five latency figures printed by `_print_results`. -/
structure LatencyStats where
  avg : ℚ
  p50 : ℚ
  p95 : ℚ
  minR : ℚ
  maxR : ℚ
deriving DecidableEq

/-- The latency-statistics portion of `LoadTestRunner._print_results`. -/
def computeStats (results : List TestResult) : LatencyStats :=
  let ts := response_times_of results
  { avg := avg_response ts
    p50 := p50_response ts
    p95 := p95_response ts
    minR := min_response ts
    maxR := max_response ts }

/-!
Small-step model of the concurrency inside `run_scenario`.

`run_scenario` creates `num_requests` coroutine tasks of `bounded_request`
and awaits them with `asyncio.gather`.  Each task, in program order:
acquires the semaphore (`async with semaphore:` entry), draws tenant and
operation and awaits the selected endpoint call, appends the outcome to
`self.results`, and releases the semaphore on block exit.  A task is one of:

* `waiting`  — created, suspended on semaphore acquisition;
* `working`  — slot acquired, endpoint call in flight;
* `finished r` — endpoint call returned `r`, append not yet executed;
* `appended r` — `self.results.append(r)` executed, slot still held
  (the append statement is inside the `async with` block);
* `done r`   — block exited, slot released.
-/

/-- Program counter of one `bounded_request` task. -/
inductive TaskState
  | waiting
  | working
  | finished (r : TestResult)
  | appended (r : TestResult)
  | done (r : TestResult)
deriving DecidableEq

/-- A task holds a semaphore slot from `async with` entry to block exit. -/
def holdsSlot : TaskState → Bool
  | .waiting => false
  | .working => true
  | .finished _ => true
  | .appended _ => true
  | .done _ => false

/-- The endpoint call of a task is in flight while it awaits the transport. -/
def inFlight : TaskState → Bool
  | .working => true
  | _ => false

/-- The outcome a task has already appended to `self.results`, if any. -/
def postedOutcome : TaskState → Option TestResult
  | .appended r => some r
  | .done r => some r
  | _ => none

/-- A task that has run to completion (its `bounded_request` returned). -/
def isDone : TaskState → Bool
  | .done _ => true
  | _ => false

/-- State of one `run_scenario` execution: the per-task program counters and
the shared `self.results` list (cleared at scenario start). -/
structure ScenState where
  tasks : List TaskState
  results : List TestResult
deriving DecidableEq

/-- Scenario start: `self.results.clear()` and `num_requests` fresh tasks. -/
def initState (num_requests : Nat) : ScenState :=
  { tasks := List.replicate num_requests .waiting, results := [] }

/-- One scheduler step of the event loop, for semaphore capacity
`concurrency`.  `acquire` is guarded by the semaphore: it fires only while
fewer than `concurrency` tasks hold a slot.  `finish` is the awaited endpoint
call returning: the outcome of the task is `performOp` of the operation selected
from the uniform draw `u`, for the chosen tenant and product id and the
behaviour of the transport.  `append` and `release` are the append statement and
the `async with` block exit. -/
inductive ScenStep (concurrency : Nat) : ScenState → ScenState → Prop
  | acquire (s : ScenState) (i : Nat)
      (h : s.tasks.get? i = some .waiting)
      (hcap : s.tasks.countP holdsSlot < concurrency) :
      ScenStep concurrency s ⟨s.tasks.set i .working, s.results⟩
  | finish (s : ScenState) (i : Nat) (tenant : String) (u : ℚ) (pid : Nat)
      (tr : TransportResult) (elapsed : ℚ)
      (h : s.tasks.get? i = some .working) :
      ScenStep concurrency s
        ⟨s.tasks.set i (.finished (performOp (selectOperation u) tenant pid tr elapsed)),
         s.results⟩
  | append (s : ScenState) (i : Nat) (r : TestResult)
      (h : s.tasks.get? i = some (.finished r)) :
      ScenStep concurrency s ⟨s.tasks.set i (.appended r), s.results ++ [r]⟩
  | release (s : ScenState) (i : Nat) (r : TestResult)
      (h : s.tasks.get? i = some (.appended r)) :
      ScenStep concurrency s ⟨s.tasks.set i (.done r), s.results⟩

/-- States reachable during `run_scenario num_requests concurrency`. -/
def Reachable (concurrency num_requests : Nat) (s : ScenState) : Prop :=
  Relation.ReflTransGen (ScenStep concurrency) (initState num_requests) s

/-!
Model of the sequencing in `main` and of the shared session lifecycle.

`main` runs the four scenarios strictly in sequence inside `try:` and calls
`runner.close_session()` in `finally:`.  A scenario run either completes or
raises an unexpected error; an error skips the remaining scenarios and jumps
to the `finally` block.  `fails i = true` means scenario `i` raises.
-/

/-- Events of one `main` run: scenario `i` starting, scenario `i` completing
(its report printed), and the single `close_session` call of `finally`. -/
inductive MainEvent
  | scenStart (i : Nat)
  | scenEnd (i : Nat)
  | sessClose
deriving DecidableEq

/-- The four hardcoded scenarios of `main`: `(num_requests, concurrency)`. -/
def scenarioList : List (Nat × Nat) := [(100, 10), (500, 50), (1000, 100), (2000, 200)]

/-- The indices of the four explicit `await runner.run_scenario(...)` calls
in the `try:` block of `main`. -/
def scenarioIndices : List Nat := [0, 1, 2, 3]

/-- The `try:` body of `main`: the scenario calls run strictly in sequence;
the `Bool` is `true` while no scenario has raised.  A raise inside scenario
`i` leaves a `scenStart i` without a matching `scenEnd i` and skips the
remaining calls (control jumps to `finally:`). -/
def runSeq (fails : Nat → Bool) (idxs : List Nat) : List MainEvent × Bool :=
  idxs.foldl
    (fun p k =>
      if p.2 then
        if fails k then (p.1 ++ [.scenStart k], false)
        else (p.1 ++ [.scenStart k, .scenEnd k], true)
      else p)
    ([], true)

/-- The event trace of one `main` run: the `try:` body followed by the
`finally:` `close_session` call, which runs exactly once whether or not a
scenario raised. -/
def mainTrace (fails : Nat → Bool) : List MainEvent :=
  (runSeq fails scenarioIndices).1 ++ [.sessClose]

/-- Is this one of the two per-scenario events? -/
def isScenEvent : MainEvent → Bool
  | .scenStart _ => true
  | .scenEnd _ => true
  | .sessClose => false

/-- Is this the `close_session` call? -/
def isCloseEvent : MainEvent → Bool
  | .sessClose => true
  | _ => false

/-- The scenario events of a run in which the first `k` scenarios completed. -/
def seqEvents : Nat → List MainEvent
  | 0 => []
  | k + 1 => seqEvents k ++ [.scenStart k, .scenEnd k]

/-- The `_session` attribute of the runner: `none` when the attribute is absent,
`some c` when a session object exists with `closed = c`. -/
def SessionAttr : Type := Option Bool

/-- Embeds `LoadTestRunner._get_session`: create a fresh open session when the
attribute is absent or the session is closed, else reuse it. -/
def get_session (s : SessionAttr) : SessionAttr :=
  match s with
  | none => some false
  | some true => some false
  | some false => some false

/-- Embeds `LoadTestRunner.close_session`: when a `_session` attribute exists, await
`close()` on it; the `Nat` counts how many `close()` calls were issued. -/
def close_session (s : SessionAttr) : SessionAttr × Nat :=
  match s with
  | none => (none, 0)
  | some _ => (some true, 1)

/-!
Concrete execution used by witnesses and the C10 counterexample: one request
(`num_requests = 1`) under `concurrency = 1`, whose draw `u = 0` selects the
List operation and whose transport call raises.
-/

/-- The outcome of the concrete unit of work driven below. -/
def cexOutcome : TestResult :=
  performOp (selectOperation 0) "company-a" 1 TransportResult.exn 0

/-- A directly-built failed outcome used by the C8 witness. -/
def failedResult : TestResult := get_all_products TransportResult.exn 0

/-- Twenty successful response times (19 zeros and one 20) used to probe the
p95 computation. -/
def p95CexList : List ℚ :=
  List.replicate 19 0 ++ [20]

/-- The inductive invariant of one `run_scenario` execution: the task list
keeps its size, at most `concurrency` tasks hold a semaphore slot, and
`self.results` holds exactly the outcomes already appended by the tasks. -/
def ScenInv (concurrency num_requests : Nat) (s : ScenState) : Prop :=
  s.tasks.length = num_requests ∧
  s.tasks.countP holdsSlot ≤ concurrency ∧
  List.Perm s.results (s.tasks.filterMap postedOutcome)

/-!
Helper lemmas about `List.set` under a `get?` hypothesis, and the inductive
invariant of the scenario transition system.
-/

/-- Updating index `i` exchanges the contribution of the old element for that
of the new one in `countP`. -/
theorem countP_set_of_get? {α : Type} (p : α → Bool) :
    ∀ (l : List α) (i : Nat) (a x : α), l.get? i = some a →
      (l.set i x).countP p + (if p a then 1 else 0)
        = l.countP p + (if p x then 1 else 0)
  | [], i, a, x, h => by simp at h
  | b :: t, 0, a, x, h => by
      simp only [List.get?] at h
      cases h
      simp only [List.set, List.countP_cons]
      omega
  | b :: t, i + 1, a, x, h => by
      simp only [List.get?] at h
      have ih := countP_set_of_get? p t i a x h
      simp only [List.set, List.countP_cons]
      omega

/-- Updating index `i` exchanges the posted value of the old element for that
of the new one in `filterMap`, up to permutation. -/
theorem filterMap_set_perm {α β : Type} (f : α → Option β) :
    ∀ (l : List α) (i : Nat) (a x : α), l.get? i = some a →
      List.Perm ((l.set i x).filterMap f ++ (f a).toList)
        (l.filterMap f ++ (f x).toList)
  | [], i, a, x, h => by simp at h
  | b :: t, 0, a, x, h => by
      simp only [List.get?] at h
      cases h
      simp only [List.set]
      cases hfb : f b <;> cases hfx : f x <;>
        simp [List.filterMap_cons, hfb, hfx] <;>
        first
          | exact List.perm_append_singleton _ _
          | exact (List.perm_append_singleton _ _).symm
          | exact ((List.perm_append_singleton _ _).cons _).trans
              ((List.Perm.swap _ _ _).trans
                ((List.perm_append_singleton _ _).symm.cons _))
  | b :: t, i + 1, a, x, h => by
      simp only [List.get?] at h
      have ih := filterMap_set_perm f t i a x h
      simp only [List.set]
      cases hfb : f b with
      | none => simpa [List.filterMap_cons, hfb] using ih
      | some v => simpa [List.filterMap_cons, hfb] using ih.cons v

theorem scenInv_init (concurrency num_requests : Nat) :
    ScenInv concurrency num_requests (initState num_requests) := by
  refine ⟨by simp [initState], ?_, ?_⟩
  · have : (List.replicate num_requests TaskState.waiting).countP holdsSlot = 0 := by
      rw [List.countP_eq_zero]
      intro a ha
      rw [List.eq_of_mem_replicate ha]
      simp [holdsSlot]
    simp [initState, this]
  · have : (List.replicate num_requests TaskState.waiting).filterMap postedOutcome = [] := by
      rw [List.filterMap_eq_nil_iff]
      intro a ha
      rw [List.eq_of_mem_replicate ha]
      rfl
    simp [initState, this]

theorem scenInv_step {concurrency num_requests : Nat} {s s' : ScenState}
    (hstep : ScenStep concurrency s s')
    (hinv : ScenInv concurrency num_requests s) :
    ScenInv concurrency num_requests s' := by
  obtain ⟨hlen, hcap, hperm⟩ := hinv
  cases hstep with
  | acquire i h hc =>
      have hcount := countP_set_of_get? holdsSlot s.tasks i _ TaskState.working h
      have hfm := filterMap_set_perm postedOutcome s.tasks i _ TaskState.working h
      simp [holdsSlot] at hcount
      simp [postedOutcome] at hfm
      exact ⟨by simp [hlen], by dsimp only; omega, hperm.trans hfm.symm⟩
  | finish i tenant u pid tr elapsed h =>
      have hcount := countP_set_of_get? holdsSlot s.tasks i _
        (TaskState.finished (performOp (selectOperation u) tenant pid tr elapsed)) h
      have hfm := filterMap_set_perm postedOutcome s.tasks i _
        (TaskState.finished (performOp (selectOperation u) tenant pid tr elapsed)) h
      simp [holdsSlot] at hcount
      simp [postedOutcome] at hfm
      exact ⟨by simp [hlen], by dsimp only; omega, hperm.trans hfm.symm⟩
  | append i r h =>
      have hcount := countP_set_of_get? holdsSlot s.tasks i _ (TaskState.appended r) h
      have hfm := filterMap_set_perm postedOutcome s.tasks i _ (TaskState.appended r) h
      simp [holdsSlot] at hcount
      simp [postedOutcome] at hfm
      exact ⟨by simp [hlen], by dsimp only; omega, (hperm.append_right [r]).trans hfm.symm⟩
  | release i r h =>
      have hcount := countP_set_of_get? holdsSlot s.tasks i _ (TaskState.done r) h
      have hfm := filterMap_set_perm postedOutcome s.tasks i _ (TaskState.done r) h
      simp [holdsSlot] at hcount
      simp only [postedOutcome, Option.toList] at hfm
      exact ⟨by simp [hlen], by dsimp only; omega,
        hperm.trans ((List.perm_append_right_iff _).mp hfm).symm⟩

/-- Every state reachable during `run_scenario` satisfies the invariant. -/
theorem reachable_inv {concurrency num_requests : Nat} {s : ScenState}
    (h : Reachable concurrency num_requests s) :
    ScenInv concurrency num_requests s := by
  induction h with
  | refl => exact scenInv_init concurrency num_requests
  | tail hsteps hstep ih => exact scenInv_step hstep ih

/-- A `filterMap` whose function hits on every element keeps the length. -/
theorem filterMap_length_of_all_some {α β : Type} (f : α → Option β) :
    ∀ l : List α, (∀ a ∈ l, (f a).isSome) → (l.filterMap f).length = l.length
  | [], _ => rfl
  | b :: t, h => by
      have hb := h b (by simp)
      have ih := filterMap_length_of_all_some f t (fun a ha => h a (by simp [ha]))
      cases hfb : f b
      · rw [hfb] at hb; simp at hb
      · simp [List.filterMap_cons, hfb, ih]

/-- After acquire, finish and append, the task has appended its outcome and
still holds its semaphore slot. -/
theorem reach_appended_cex :
    Reachable 1 1 ⟨[TaskState.appended cexOutcome], [cexOutcome]⟩ := by
  refine Relation.ReflTransGen.head
    (ScenStep.acquire (initState 1) 0 rfl (by decide)) ?_
  refine Relation.ReflTransGen.head
    (ScenStep.finish _ 0 "company-a" 0 1 TransportResult.exn 0 rfl) ?_
  refine Relation.ReflTransGen.head
    (ScenStep.append _ 0 cexOutcome rfl) ?_
  exact Relation.ReflTransGen.refl

/-- One release step later the scenario is fully terminated. -/
theorem reach_done_cex :
    Reachable 1 1 ⟨[TaskState.done cexOutcome], [cexOutcome]⟩ :=
  Relation.ReflTransGen.tail reach_appended_cex
    (ScenStep.release _ 0 cexOutcome rfl)

/-- C1: when `run_scenario` returns (every unit of work has completed), the
outcome collection `self.results` contains exactly `num_requests` outcomes —
one appended per unit of work, no duplicates and no drops (`self.results` is
a permutation of the per-task outcomes) — regardless of whether individual
requests succeeded or failed. -/
theorem run_scenario_collects_all (concurrency num_requests : Nat)
    (s : ScenState) (hreach : Reachable concurrency num_requests s)
    (hdone : ∀ t ∈ s.tasks, isDone t = true) :
    s.results.length = num_requests ∧
    List.Perm s.results (s.tasks.filterMap postedOutcome) := by
  obtain ⟨hlen, -, hperm⟩ := reachable_inv hreach
  refine ⟨?_, hperm⟩
  have hall : ∀ t ∈ s.tasks, (postedOutcome t).isSome := by
    intro t ht
    have := hdone t ht
    cases t <;> simp_all [isDone, postedOutcome]
  rw [hperm.length_eq, filterMap_length_of_all_some postedOutcome s.tasks hall,
    hlen]

/-- C1 witness: the concrete one-request execution collects exactly one
outcome. -/
theorem run_scenario_collects_all_witness :
    ([cexOutcome] : List TestResult).length = 1 ∧
    List.Perm [cexOutcome]
      ([TaskState.done cexOutcome].filterMap postedOutcome) :=
  run_scenario_collects_all 1 1 ⟨[TaskState.done cexOutcome], [cexOutcome]⟩
    reach_done_cex (by decide)

/-- C3: at every reachable instant of `run_scenario`, the number of
dispatched-but-not-yet-completed endpoint calls is at most `concurrency`: an
in-flight call exists only inside the `async with semaphore:` block, and the
semaphore — the sole guard of the `acquire` step — admits at most
`concurrency` simultaneous holders. -/
theorem in_flight_never_exceeds_concurrency (concurrency num_requests : Nat)
    (s : ScenState) (hreach : Reachable concurrency num_requests s) :
    s.tasks.countP inFlight ≤ concurrency := by
  have hcap := (reachable_inv hreach).2.1
  have hmono : s.tasks.countP inFlight ≤ s.tasks.countP holdsSlot := by
    apply List.countP_mono_left
    intro t ht h
    cases t <;> simp_all [inFlight, holdsSlot]
  exact hmono.trans hcap

/-- C3 witness: the bound instantiated at the parameters of scenario 1. -/
theorem in_flight_never_exceeds_concurrency_witness :
    (initState 100).tasks.countP inFlight ≤ 10 :=
  in_flight_never_exceeds_concurrency 10 100 (initState 100)
    Relation.ReflTransGen.refl

/-- C10 counterexample: there is a reachable instant at which the unit of
work has its outcome already appended to `self.results` while the task still
holds its semaphore slot, so the slot is NOT released before the append.  In
the source the append statement sits inside the `async with semaphore:`
block, so release happens at block exit, after the append. -/
theorem slot_released_before_append_counterexample :
    Reachable 1 1 ⟨[TaskState.appended cexOutcome], [cexOutcome]⟩ ∧
    cexOutcome ∈ ([cexOutcome] : List TestResult) ∧
    holdsSlot (TaskState.appended cexOutcome) = true :=
  ⟨reach_appended_cex, by simp, rfl⟩

/-- C10 amended: the order is append first, release second: whenever a task
has released its slot (reached `done`), its outcome is already in
`self.results`. -/
theorem outcome_appended_before_release (concurrency num_requests : Nat)
    (s : ScenState) (hreach : Reachable concurrency num_requests s)
    (i : Nat) (r : TestResult)
    (h : s.tasks.get? i = some (TaskState.done r)) :
    r ∈ s.results := by
  have hperm := (reachable_inv hreach).2.2
  have hmem : TaskState.done r ∈ s.tasks := List.get?_mem h
  have hfm : r ∈ s.tasks.filterMap postedOutcome :=
    List.mem_filterMap.mpr ⟨TaskState.done r, hmem, rfl⟩
  exact hperm.mem_iff.mpr hfm

/-- C10 amended witness: in the concrete terminated execution the released
task has its outcome in the collection. -/
theorem outcome_appended_before_release_witness :
    cexOutcome ∈ ([cexOutcome] : List TestResult) :=
  outcome_appended_before_release 1 1
    ⟨[TaskState.done cexOutcome], [cexOutcome]⟩ reach_done_cex 0 cexOutcome rfl

/-- C2: a raised transport call is converted, in each of the three endpoint
operations, into an outcome with `status_code = 0`, `success = false` and the
elapsed time measured up to the failure point; each operation is a total
function, so the exception never propagates to the caller. -/
theorem transport_failure_converted (elapsed : ℚ) (pid : Nat) :
    ((get_all_products TransportResult.exn elapsed).status_code = 0 ∧
      (get_all_products TransportResult.exn elapsed).success = false ∧
      (get_all_products TransportResult.exn elapsed).response_time_ms = elapsed) ∧
    ((get_product_by_id TransportResult.exn elapsed pid).status_code = 0 ∧
      (get_product_by_id TransportResult.exn elapsed pid).success = false ∧
      (get_product_by_id TransportResult.exn elapsed pid).response_time_ms = elapsed) ∧
    ((create_product TransportResult.exn elapsed).status_code = 0 ∧
      (create_product TransportResult.exn elapsed).success = false ∧
      (create_product TransportResult.exn elapsed).response_time_ms = elapsed) :=
  ⟨⟨rfl, rfl, rfl⟩, ⟨rfl, rfl, rfl⟩, ⟨rfl, rfl, rfl⟩⟩

/-- C5: for every outcome produced by an endpoint operation, `success` holds
exactly when `status_code` equals the expected success code of the operation: 200
for List and GetByID, 201 for Create. -/
theorem success_iff_expected_code (tr : TransportResult) (elapsed : ℚ)
    (pid : Nat) :
    ((get_all_products tr elapsed).success = true ↔
      (get_all_products tr elapsed).status_code = 200) ∧
    ((get_product_by_id tr elapsed pid).success = true ↔
      (get_product_by_id tr elapsed pid).status_code = 200) ∧
    ((create_product tr elapsed).success = true ↔
      (create_product tr elapsed).status_code = 201) := by
  cases tr <;> simp [get_all_products, get_product_by_id, create_product]

/-- C4: the operation executed by a unit of work is determined by one uniform
draw `u ∈ [0,1)` through the fixed cumulative-weight bands `[0, 1/2)` List,
`[1/2, 4/5)` GetByID, `[4/5, 1)` Create. -/
theorem operation_bands (u : ℚ) (h0 : 0 ≤ u) (h1 : u < 1) :
    (selectOperation u = Operation.listAll ↔ 0 ≤ u ∧ u < 1/2) ∧
    (selectOperation u = Operation.getById ↔ 1/2 ≤ u ∧ u < 4/5) ∧
    (selectOperation u = Operation.create ↔ 4/5 ≤ u ∧ u < 1) := by
  unfold selectOperation
  split_ifs with hA hB <;>
    refine ⟨?_, ?_, ?_⟩ <;>
    constructor <;>
    intro h <;>
    first
      | rfl
      | exact ⟨by linarith, by linarith⟩
      | exact absurd h (by decide)
      | (exfalso; obtain ⟨ha, hb⟩ := h; linarith)

/-- C4 witness: the bands evaluated at the draw `u = 3/5`. -/
theorem operation_bands_witness :
    (selectOperation (3/5) = Operation.listAll ↔
      0 ≤ (3/5 : ℚ) ∧ (3/5 : ℚ) < 1/2) ∧
    (selectOperation (3/5) = Operation.getById ↔
      1/2 ≤ (3/5 : ℚ) ∧ (3/5 : ℚ) < 4/5) ∧
    (selectOperation (3/5) = Operation.create ↔
      4/5 ≤ (3/5 : ℚ) ∧ (3/5 : ℚ) < 1) :=
  operation_bands (3/5) (by norm_num) (by norm_num)

/-!
Evaluation lemmas for the two quantile computations of `_print_results`.
-/

theorem sortTimes_length (l : List ℚ) : (sortTimes l).length = l.length := by
  simp [sortTimes, List.length_insertionSort]

/-- With at least two samples, the reported median is the single cut point of
the exclusive 2-quantile. -/
theorem p50_eq_cut (l : List ℚ) (h2 : 2 ≤ l.length) :
    p50_response l = quantileCut (sortTimes l) l.length 2 1 := by
  rw [p50_response, if_pos h2, pyQuantiles]
  simp [sortTimes_length]

theorem quantileCut_two_odd (d : List ℚ) (k : Nat) (hk : 1 ≤ k) :
    quantileCut d (2 * k + 1) 2 1 = d.getD k 0 := by
  simp only [quantileCut]
  have hj0 : 1 * (2 * k + 1 + 1) / 2 = k + 1 := by omega
  have hd : 1 * (2 * k + 1 + 1) % 2 = 0 := by omega
  rw [hj0, hd, if_neg (by omega : ¬ (k + 1 < 1)),
    if_neg (by omega : ¬ (2 * k + 1 - 1 < k + 1))]
  have hidx : k + 1 - 1 = k := by omega
  rw [hidx]
  push_cast
  ring_nf

theorem quantileCut_two_even (d : List ℚ) (k : Nat) (hk : 1 ≤ k) :
    quantileCut d (2 * k) 2 1 = (d.getD (k - 1) 0 + d.getD k 0) / 2 := by
  simp only [quantileCut]
  have hj0 : 1 * (2 * k + 1) / 2 = k := by omega
  have hd : 1 * (2 * k + 1) % 2 = 1 := by omega
  rw [hj0, hd, if_neg (by omega : ¬ (k < 1)),
    if_neg (by omega : ¬ (2 * k - 1 < k))]
  push_cast
  ring_nf

/-- With at least twenty samples, the reported p95 is the 19th cut point of
the exclusive 20-quantile. -/
theorem p95_eq_cut (l : List ℚ) (h20 : 20 ≤ l.length) :
    p95_response l = quantileCut (sortTimes l) l.length 20 19 := by
  rw [p95_response, if_pos h20, pyQuantiles]
  simp [List.getD_eq_getElem?_getD, List.getElem?_map, List.getElem?_range,
    sortTimes_length]

/-- For `20 ≤ ld` the clamp of the 19th cut point is inactive and the cut is
the linear interpolation between the order statistics at positions
`19(ld+1)/20 - 1` and `19(ld+1)/20`, weighted by `19(ld+1) mod 20`. -/
theorem quantileCut_twenty (d : List ℚ) (ld : Nat) (h20 : 20 ≤ ld) :
    quantileCut d ld 20 19 =
      (d.getD (19 * (ld + 1) / 20 - 1) 0 *
          ((20 : ℚ) - ((19 * (ld + 1) % 20 : Nat) : ℚ)) +
        d.getD (19 * (ld + 1) / 20) 0 * ((19 * (ld + 1) % 20 : Nat) : ℚ)) / 20 := by
  simp only [quantileCut]
  rw [if_neg (by omega : ¬ (19 * (ld + 1) / 20 < 1)),
    if_neg (by omega : ¬ (ld - 1 < 19 * (ld + 1) / 20))]
  norm_num

/-- C8: when no outcome in the collection is successful, the five reported
latency figures (mean, median, p95, min, max) are all 0; every computation in
the embedding is a total function of the collection, so no error is raised. -/
theorem stats_zero_without_success (results : List TestResult)
    (h : ∀ r ∈ results, r.success = false) :
    computeStats results = ⟨0, 0, 0, 0, 0⟩ := by
  have hnil : successful_results results = [] := by
    rw [successful_results, List.filter_eq_nil_iff]
    intro r hr
    simp [h r hr]
  simp [computeStats, response_times_of, hnil, avg_response, p50_response,
    p95_response, min_response, max_response]

/-- C8 witness: the statistics of a collection holding one failed outcome. -/
theorem stats_zero_without_success_witness :
    computeStats [failedResult] = ⟨0, 0, 0, 0, 0⟩ :=
  stats_zero_without_success [failedResult] (by decide)

/-- C6 counterexample: on the two successful samples `[0, 2]` the code
reports `1`, the average of the two middle values, while the claimed policy
(lower of the two middle values) gives the first sorted element, `0`. -/
theorem median_lower_middle_counterexample :
    p50_response [0, 2] = 1 ∧ (sortTimes [0, 2]).getD 0 0 = 0 ∧
    p50_response [0, 2] ≠ (sortTimes [0, 2]).getD 0 0 := by
  have h1 : p50_response [0, 2] = 1 := by
    norm_num [p50_response, pyQuantiles, quantileCut, sortTimes,
      List.insertionSort, List.orderedInsert]
  have h2 : (sortTimes [0, 2]).getD 0 0 = 0 := by decide
  refine ⟨h1, h2, ?_⟩
  rw [h1, h2]
  norm_num

/-- C6 amended: the reported median is 0 whenever fewer than 2 successful
samples exist; with at least 2 it is the midpoint of the sorted successful
times — the middle element for an odd count, and the AVERAGE of the two
middle values (not the lower one) for an even count. -/
theorem median_policy (l : List ℚ) :
    (l.length < 2 → p50_response l = 0) ∧
    (2 ≤ l.length → l.length % 2 = 1 →
      p50_response l = (sortTimes l).getD (l.length / 2) 0) ∧
    (2 ≤ l.length → l.length % 2 = 0 →
      p50_response l =
        ((sortTimes l).getD (l.length / 2 - 1) 0 +
          (sortTimes l).getD (l.length / 2) 0) / 2) := by
  refine ⟨?_, ?_, ?_⟩
  · intro hlt
    rw [p50_response, if_neg (by omega)]
  · intro h2 hodd
    have hkey := p50_eq_cut l h2
    obtain ⟨k, hk⟩ : ∃ k, l.length = 2 * k + 1 := ⟨l.length / 2, by omega⟩
    have hk1 : 1 ≤ k := by omega
    rw [hkey, hk, quantileCut_two_odd (sortTimes l) k hk1]
    congr 1
    omega
  · intro h2 heven
    have hkey := p50_eq_cut l h2
    obtain ⟨k, hk⟩ : ∃ k, l.length = 2 * k := ⟨l.length / 2, by omega⟩
    have hk1 : 1 ≤ k := by omega
    rw [hkey, hk, quantileCut_two_even (sortTimes l) k hk1]
    have e1 : 2 * k / 2 - 1 = k - 1 := by omega
    have e2 : 2 * k / 2 = k := by omega
    rw [e1, e2]

/-- C6 witness: the sub-threshold zero on a single sample and the even-count
midpoint on four samples. -/
theorem median_policy_witness :
    p50_response [0] = 0 ∧
    p50_response [0, 1, 2, 3] =
      ((sortTimes [0, 1, 2, 3]).getD 1 0 +
        (sortTimes [0, 1, 2, 3]).getD 2 0) / 2 :=
  ⟨(median_policy [0]).1 (by decide),
    (median_policy [0, 1, 2, 3]).2.2 (by decide) (by decide)⟩

/-- C7 counterexample: on twenty successful samples (nineteen 0s and one 20)
the code reports p95 = 19, a value that is none of the samples — a pure
rank-based quantile without interpolation always returns a sample value. -/
theorem p95_no_interpolation_counterexample :
    p95_response p95CexList = 19 ∧ (19 : ℚ) ∉ p95CexList := by
  constructor
  · have h1 := p95_eq_cut p95CexList (by decide)
    have h2 := quantileCut_twenty (sortTimes p95CexList) p95CexList.length
      (by decide)
    have hs : sortTimes p95CexList = p95CexList := by decide
    have hlen : p95CexList.length = 20 := by decide
    have hq18 : p95CexList[18]?.getD 0 = (0 : ℚ) := by decide
    have hq19 : p95CexList[19]?.getD 0 = (20 : ℚ) := by decide
    rw [h1, h2, hs, hlen]
    norm_num [hq18, hq19]
  · decide

/-- C7 amended: the reported p95 is 0 whenever fewer than 20 successful
samples exist; with at least 20 it is the exclusive-method 19th 20-quantile
of the sorted successful times: the linear interpolation between the sorted
values at positions `19(n+1)/20 - 1` and `19(n+1)/20` with weight
`(19(n+1) mod 20)/20` — not a rank statistic free of interpolation. -/
theorem p95_exclusive_interpolation (l : List ℚ) :
    (l.length < 20 → p95_response l = 0) ∧
    (20 ≤ l.length →
      p95_response l =
        ((sortTimes l).getD (19 * (l.length + 1) / 20 - 1) 0 *
            ((20 : ℚ) - ((19 * (l.length + 1) % 20 : Nat) : ℚ)) +
          (sortTimes l).getD (19 * (l.length + 1) / 20) 0 *
            ((19 * (l.length + 1) % 20 : Nat) : ℚ)) / 20) := by
  constructor
  · intro hlt
    rw [p95_response, if_neg (by omega)]
  · intro h20
    exact (p95_eq_cut l h20).trans
      (quantileCut_twenty (sortTimes l) l.length h20)

/-- C7 witness: the sub-threshold zero on a single sample and the
interpolation formula evaluated on the twenty samples of `p95CexList`. -/
theorem p95_exclusive_interpolation_witness :
    p95_response [0] = 0 ∧
    p95_response p95CexList =
      ((sortTimes p95CexList).getD (19 * (p95CexList.length + 1) / 20 - 1) 0 *
          ((20 : ℚ) - ((19 * (p95CexList.length + 1) % 20 : Nat) : ℚ)) +
        (sortTimes p95CexList).getD (19 * (p95CexList.length + 1) / 20) 0 *
          ((19 * (p95CexList.length + 1) % 20 : Nat) : ℚ)) / 20 :=
  ⟨(p95_exclusive_interpolation [0]).1 (by decide),
    (p95_exclusive_interpolation p95CexList).2 (by decide)⟩

/-- C9: over every `main` run — whichever scenario, if any, raises an
unexpected error — the `finally:` block reaches the `close_session` call
exactly once, as the last event of the run; the scenario calls occur
strictly in sequence (the scenario events of the trace are a prefix
`scenStart 0, scenEnd 0, scenStart 1, ...` of the ordered sequence, cut at
the raising scenario); and `close_session` itself closes the shared session
at most once over the run — exactly once whenever the `_session` attribute
exists. -/
theorem session_released_once_scenarios_sequential (fails : Nat → Bool) :
    (mainTrace fails).countP isCloseEvent = 1 ∧
    (mainTrace fails).getLast? = some MainEvent.sessClose ∧
    (∃ k, k ≤ scenarioIndices.length ∧
      ((mainTrace fails).filter isScenEvent = seqEvents k ∨
        (mainTrace fails).filter isScenEvent =
          seqEvents k ++ [MainEvent.scenStart k])) ∧
    (∀ sess : SessionAttr, (close_session sess).2 ≤ 1 ∧
      (sess ≠ none → (close_session sess).2 = 1)) := by
  have hclose : ∀ sess : SessionAttr, (close_session sess).2 ≤ 1 ∧
      (sess ≠ none → (close_session sess).2 = 1) := by
    intro sess
    cases sess <;> simp [close_session]
  cases hf0 : fails 0 <;> cases hf1 : fails 1 <;> cases hf2 : fails 2 <;>
    cases hf3 : fails 3 <;>
    refine ⟨?_, ?_, ?_, hclose⟩ <;>
    simp [mainTrace, runSeq, scenarioIndices, hf0, hf1, hf2, hf3,
      isCloseEvent, isScenEvent] <;>
    decide
